import Mathlib

/-!
Shallow embedding of `nuxt-use-async-data-wrapper`.

The repository contains two implementations of the same utility:
* `src/src/index.ts` — `useAsyncDataWrapper` with the enumeration and the
  per-call wrapper written inline (the enumeration looks only at the own
  property names of the object's immediate prototype);
* `src/unnamed/part_001` — the refactored variant, with helpers
  `getFunctionNames` (walks the whole prototype chain), `getWrappedFunction`,
  `getWrappedFunctionWithArgs` and `getWrapedFunctionWithoutArgs`.

Values that matter to the wrapper are promises and plain values; the external
collaborators (`useAsyncData`, `computed`, `JSON.stringify`) are modelled by
their observable effect: a wrapper call either throws (the argsSupplier threw
while the key was being computed) or registers exactly one call with
`useAsyncData`, captured as an `EmittedCall` (key, result of the producer
thunk, configuration object).
-/

namespace Wrapper

/-- A JS value as far as the wrapper observes it: either a `Promise` (with its
eventual contents) or a plain, non-deferred value. -/
inductive JSVal where
  | promise (contents : Int)
  | plain (v : Int)
deriving DecidableEq

/-- `result instanceof Promise`. -/
def isPromise : JSVal → Bool
  | JSVal.promise _ => true
  | JSVal.plain _ => false

/-- `Promise.resolve(v)`: an already-settled promise is returned as is, a plain
value is wrapped in an already-resolved promise. -/
def promiseResolve : JSVal → JSVal
  | JSVal.promise c => JSVal.promise c
  | JSVal.plain v => JSVal.promise v

/-- `result instanceof Promise ? result : Promise.resolve(result)` — the
normalization ternary that both implementations place in the producer thunk. -/
def ensurePromise (result : JSVal) : JSVal :=
  if isPromise result then result else promiseResolve result

/-- `JSON.stringify` on an array of numbers (the host-provided serializer used
for the cache key): bracketed, comma-separated decimal rendering. -/
def jsonStringify (args : List Int) : String :=
  "[" ++ String.intercalate "," (args.map toString) ++ "]"

/-- A reactive dependency appearing in a `watch` list: either the internally
computed `computed(() => argsSupplier())` ref injected by the wrapper, or a
ref supplied by the caller inside its options object. -/
inductive WatchRef where
  | argsRefWatch
  | custom (id : Nat)
deriving DecidableEq

/-- The caller-supplied `AsyncDataOptions` object. Each field is `some` when
the property is present on the object and `none` when absent, so object spread
can be modelled precisely. -/
structure Options where
  lazy : Option Bool
  server : Option Bool
  watch : Option (List WatchRef)
deriving DecidableEq

/-- The configuration object finally handed to `useAsyncData` (after the
object-spread merge performed by the wrapper). -/
structure Config where
  lazy : Option Bool
  server : Option Bool
  watch : Option (List WatchRef)
deriving DecidableEq

/-- One registration with `useAsyncData`: the cache key, the value produced by
the thunk when the primitive invokes it, and the merged configuration. -/
structure EmittedCall where
  key : String
  thunkResult : JSVal
  config : Config
deriving DecidableEq

/-- An original function captured from the source object: its declared
parameter count (`fn.length`) and its behavior on an argument list (already
bound to the source object). -/
structure OrigFn where
  length : Nat
  impl : List Int → JSVal

/-- The first positional argument of a wrapper call, when present: either a
function value (an argsSupplier, modelled by the outcome of invoking it —
`Except.error` when it throws) or a non-function value, i.e. an options
object. -/
inductive CallArg where
  | fnArg (supplier : Except String (List Int))
  | optsArg (opts : Options)

/-- The inline wrapper body of `src/src/index.ts` (lines 80–137): dispatch on
`typeof args[0] === 'function'`; in the parameterized branch the key
`` `${key}-${JSON.stringify(argsRef.value)}` `` is computed (evaluating
`dataKeyRef.value` invokes the argsSupplier, so a throwing supplier aborts the
call before `useAsyncData` is reached), the thunk normalizes the result, and
the configuration is `{ watch: [argsRef], ...options }`; in the simple branch
the key is the bare name and the configuration is `{ ...options }`. -/
def wrappedCallIndex (key : String) (f : OrigFn) (first : Option CallArg)
    (second : Option Options) : Except String EmittedCall :=
  match first with
  | some (CallArg.fnArg argsSupplier) =>
      argsSupplier.bind fun args =>
        Except.ok ⟨key ++ "-" ++ jsonStringify args,
          ensurePromise (f.impl args),
          match second with
          | none => ⟨none, none, some [WatchRef.argsRefWatch]⟩
          | some o => ⟨o.lazy, o.server, some (o.watch.getD [WatchRef.argsRefWatch])⟩⟩
  | some (CallArg.optsArg o) =>
      Except.ok ⟨key, ensurePromise (f.impl []), ⟨o.lazy, o.server, o.watch⟩⟩
  | none =>
      Except.ok ⟨key, ensurePromise (f.impl []), ⟨none, none, none⟩⟩

/-- `getWrappedFunctionWithArgs` of `src/unnamed/part_001` (lines 119–147). -/
def getWrappedFunctionWithArgs (functionName : String) (originalFunction : OrigFn)
    (argsSupplier : Except String (List Int)) (options : Option Options) :
    Except String EmittedCall :=
  argsSupplier.bind fun args =>
    Except.ok ⟨functionName ++ "-" ++ jsonStringify args,
      ensurePromise (originalFunction.impl args),
      match options with
      | none => ⟨none, none, some [WatchRef.argsRefWatch]⟩
      | some o => ⟨o.lazy, o.server, some (o.watch.getD [WatchRef.argsRefWatch])⟩⟩

/-- `getWrapedFunctionWithoutArgs` of `src/unnamed/part_001` (lines 149–168)
(the spelling follows the source). -/
def getWrapedFunctionWithoutArgs (functionName : String) (originalFunction : OrigFn)
    (options : Option Options) : Except String EmittedCall :=
  Except.ok ⟨functionName, ensurePromise (originalFunction.impl []),
    match options with
    | none => ⟨none, none, none⟩
    | some o => ⟨o.lazy, o.server, o.watch⟩⟩

/-- `getWrappedFunction` of `src/unnamed/part_001` (lines 93–117): dispatch on
`typeof args[0] === 'function'`. -/
def getWrappedFunction (functionName : String) (originalFunction : OrigFn)
    (first : Option CallArg) (second : Option Options) : Except String EmittedCall :=
  match first with
  | some (CallArg.fnArg argsSupplier) =>
      getWrappedFunctionWithArgs functionName originalFunction argsSupplier second
  | some (CallArg.optsArg o) =>
      getWrapedFunctionWithoutArgs functionName originalFunction (some o)
  | none =>
      getWrapedFunctionWithoutArgs functionName originalFunction none

/-- A property of a JS object, as far as enumeration observes it:
function-valued or not. -/
inductive Member where
  | fn
  | nonfn
deriving DecidableEq

/-- The own properties of one object in a prototype chain, in
`Object.getOwnPropertyNames` order. -/
abbrev Level := List (String × Member)

/-- A source object together with its prototype chain: its own properties,
the own properties of each user-defined prototype in order, and whether the
chain then terminates in `Object.prototype` (`true`) or directly in `null`
(`false`, as for `Object.create(null)`). -/
structure JSObject where
  own : Level
  protos : List Level
  hasObjectProto : Bool

/-- The function-valued own properties of `Object.prototype` in a standard JS
environment (the `__proto__` accessor is omitted: `typeof` yields `object`
for it). Environment-provided, not repository code. -/
def objectProtoLevel : Level :=
  [("constructor", Member.fn), ("hasOwnProperty", Member.fn),
   ("isPrototypeOf", Member.fn), ("propertyIsEnumerable", Member.fn),
   ("toLocaleString", Member.fn), ("toString", Member.fn),
   ("valueOf", Member.fn)]

/-- The full prototype chain of the object, the object itself first. -/
def chainOf (o : JSObject) : List Level :=
  (o.own :: o.protos) ++ (if o.hasObjectProto then [objectProtoLevel] else [])

/-- Look a name up among the own properties of one object. -/
def levelLookup (l : Level) (k : String) : Option Member :=
  (l.find? (fun p => p.1 == k)).map Prod.snd

/-- JS property lookup `obj[key]`: the first object along the chain owning
the property provides the value. -/
def chainLookup : List Level → String → Option Member
  | [], _ => none
  | l :: ls, k =>
      match levelLookup l k with
      | some m => some m
      | none => chainLookup ls k

/-- `typeof obj[key] === 'function'` for a lookup result. -/
def isFunctionTypeof (m : Option Member) : Bool :=
  match m with
  | some Member.fn => true
  | _ => false

/-- `Object.getPrototypeOf(obj)`: the immediate prototype, or `none` for the
JS value `null`. -/
def getPrototypeOfObj (o : JSObject) : Option Level :=
  match o.protos with
  | p :: _ => some p
  | [] => if o.hasObjectProto then some objectProtoLevel else none

/-- The enumeration of `src/src/index.ts` (lines 68–73):
`Object.getOwnPropertyNames(Object.getPrototypeOf(obj))` filtered by
`key !== 'constructor' && typeof obj[key] === 'function'`. When the immediate
prototype is `null`, `Object.getOwnPropertyNames(null)` throws a `TypeError`,
modelled as `none`. -/
def functionNamesIndex (o : JSObject) : Option (List String) :=
  match getPrototypeOfObj o with
  | none => none
  | some proto =>
      some ((proto.map Prod.fst).filter
        (fun key => key != "constructor" && isFunctionTypeof (chainLookup (chainOf o) key)))

/-- `Set.add` on an insertion-ordered set of names. -/
def addToSet (acc : List String) (k : String) : List String :=
  if k ∈ acc then acc else acc ++ [k]

/-- `getFunctionNames` of `src/unnamed/part_001` (lines 77–91): walk the chain
from the object itself upward, stopping at `Object.prototype` or `null`,
collecting own property names that are not `constructor` and whose own value
is a function, deduplicated in first-discovery order. -/
def getFunctionNames (o : JSObject) : List String :=
  (o.own :: o.protos).foldl
    (fun acc level =>
      level.foldl
        (fun acc2 entry =>
          if entry.1 != "constructor" && (entry.2 == Member.fn) then addToSet acc2 entry.1
          else acc2)
        acc)
    []

/-- A source object with behavior: its enumeration shape and, per member name,
the bound original function `obj[name].bind(obj)`. -/
structure SourceObj where
  shape : JSObject
  impls : String → OrigFn

/-- A wrapped object: the discovered member names and, per name, the wrapper
function (a call either throws or registers one `useAsyncData` call). -/
structure WrappedObj where
  names : List String
  call : String → Option CallArg → Option Options → Except String EmittedCall

/-- `useAsyncDataWrapper` of `src/unnamed/part_001` (lines 64–75). -/
def useAsyncDataWrapper (o : SourceObj) : WrappedObj :=
  ⟨getFunctionNames o.shape, fun n => getWrappedFunction n (o.impls n)⟩

/-- `useAsyncDataWrapper` of `src/src/index.ts` (lines 64–141); `none` models
the `TypeError` thrown when the object's prototype is `null`. -/
def useAsyncDataWrapperIndex (o : SourceObj) : Option WrappedObj :=
  match functionNamesIndex o.shape with
  | none => none
  | some ns => some ⟨ns, fun n => wrappedCallIndex n (o.impls n)⟩

/-- Key of the `useAsyncData` registration produced by a wrapper call, when
the call did not throw. -/
def emittedKey : Except String EmittedCall → Option String
  | Except.ok c => some c.key
  | Except.error _ => none

/-- Value produced by the registered thunk, when the call did not throw. -/
def emittedThunk : Except String EmittedCall → Option JSVal
  | Except.ok c => some c.thunkResult
  | Except.error _ => none

/-- Configuration of the registration, when the call did not throw. -/
def emittedConfig : Except String EmittedCall → Option Config
  | Except.ok c => some c.config
  | Except.error _ => none

/-- `new Derived()` for `class Base { a() {} }` and
`class Derived extends Base { b() {} }`: no own properties,
`Derived.prototype` owns `constructor` and `b`, `Base.prototype` owns
`constructor` and `a`, chain ends in `Object.prototype`. -/
def derivedObj : JSObject :=
  ⟨[], [[("constructor", Member.fn), ("b", Member.fn)],
        [("constructor", Member.fn), ("a", Member.fn)]], true⟩

/-- `Object.assign(Object.create(null), { x: 1 })`: one non-function own
property, immediate prototype `null`, zero function-valued members anywhere. -/
def nullProtoObj : JSObject :=
  ⟨[("x", Member.nonfn)], [], false⟩

/-- A zero-declared-parameter original function (`fn.length = 0`). -/
def fZero : OrigFn :=
  ⟨0, fun _ => JSVal.promise 0⟩

/-- A one-declared-parameter original function (`fn.length = 1`). -/
def gOne : OrigFn :=
  ⟨1, fun args => JSVal.promise (args.headD 0)⟩

/-- An options object carrying nothing. -/
def emptyOptions : Options :=
  ⟨none, none, none⟩

/-- An options object carrying only a caller-supplied watch list. -/
def customOpts : Options :=
  ⟨none, none, some [WatchRef.custom 7]⟩

/-- `++` on strings cancels on the left (shared helper). -/
theorem string_append_left_cancel {s x y : String} (h : s ++ x = s ++ y) : x = y := by
  have hd : (s ++ x).data = (s ++ y).data := congrArg String.data h
  rw [String.data_append, String.data_append] at hd
  exact String.ext (List.append_cancel_left hd)

/-- Claim C1, counterexample: the wrapper of a function with zero declared
parameters (`fZero.length = 0`), when called with a function first argument,
runs the parameterized variant and emits the key `f-[]`, not the bare key `f`
— the variant is not fixed at wrap time by the declared parameter count.
Dually, the wrapper of a one-parameter function called with only an options
object runs the simple variant and emits the bare key `g`. Both
implementations behave this way. -/
theorem C1_counterexample :
    emittedKey (wrappedCallIndex "f" fZero (some (CallArg.fnArg (Except.ok []))) none) ≠ some "f"
  ∧ emittedKey (wrappedCallIndex "f" fZero (some (CallArg.fnArg (Except.ok []))) none) = some "f-[]"
  ∧ emittedKey (getWrappedFunction "f" fZero (some (CallArg.fnArg (Except.ok []))) none) = some "f-[]"
  ∧ emittedKey (wrappedCallIndex "g" gOne (some (CallArg.optsArg emptyOptions)) none) = some "g"
  ∧ emittedKey (getWrappedFunction "g" gOne (some (CallArg.optsArg emptyOptions)) none) = some "g" := by
  refine ⟨by decide, rfl, rfl, rfl, rfl⟩

/-- Claim C1, amended: neither implementation consults the declared parameter
count at any point — two original functions differing only in `length` give
wrappers with identical behavior on every call — and the variant executed is
chosen at each call from the shape of the first argument alone: a function
first argument selects the parameterized variant (key
`name ++ "-" ++ jsonStringify args`), any other first argument, or none,
selects the simple variant (bare key `name`). -/
theorem C1_dispatch_is_per_call (name : String) (n m : Nat) (impl : List Int → JSVal)
    (args : List Int) (o : Options) (second : Option Options) :
    (∀ first second2, wrappedCallIndex name ⟨n, impl⟩ first second2
        = wrappedCallIndex name ⟨m, impl⟩ first second2)
  ∧ (∀ first second2, getWrappedFunction name ⟨n, impl⟩ first second2
        = getWrappedFunction name ⟨m, impl⟩ first second2)
  ∧ emittedKey (wrappedCallIndex name ⟨n, impl⟩ (some (CallArg.fnArg (Except.ok args))) second)
      = some (name ++ "-" ++ jsonStringify args)
  ∧ emittedKey (wrappedCallIndex name ⟨n, impl⟩ (some (CallArg.optsArg o)) second) = some name
  ∧ emittedKey (wrappedCallIndex name ⟨n, impl⟩ none second) = some name
  ∧ emittedKey (getWrappedFunction name ⟨n, impl⟩ (some (CallArg.fnArg (Except.ok args))) second)
      = some (name ++ "-" ++ jsonStringify args)
  ∧ emittedKey (getWrappedFunction name ⟨n, impl⟩ (some (CallArg.optsArg o)) second) = some name
  ∧ emittedKey (getWrappedFunction name ⟨n, impl⟩ none second) = some name := by
  refine ⟨fun first second2 => ?_, fun first second2 => ?_, rfl, rfl, rfl, rfl, rfl, rfl⟩ <;>
    cases first with
    | none => rfl
    | some a => cases a <;> rfl

/-- Claim C2: on `new Derived()` (`Base` declares `a`, `Derived` adds `b`),
the chain-walking enumeration of `src/unnamed/part_001` finds both `b` and
`a` with the constructor slot excluded, whereas the enumeration of
`src/src/index.ts` reads only the own properties of the immediate prototype
and finds `b` but not the inherited `a`. -/
theorem C2_inheritance_eval :
    getFunctionNames derivedObj = ["b", "a"]
  ∧ functionNamesIndex derivedObj = some ["b"]
  ∧ (useAsyncDataWrapper ⟨derivedObj, fun _ => fZero⟩).names = ["b", "a"] := by
  refine ⟨by decide, by decide, by decide⟩

/-- Claim C3: on an object with zero function-valued members anywhere in its
chain and a `null` immediate prototype (`Object.create(null)` with one data
property), the `src/unnamed/part_001` wrap yields an object with zero wrapper
members without failing, but the `src/src/index.ts` wrap throws
(`Object.getOwnPropertyNames(null)` raises a `TypeError`, modelled `none`) —
so `wrap` is not failure-free in that implementation. -/
theorem C3_null_prototype_eval :
    functionNamesIndex nullProtoObj = none
  ∧ useAsyncDataWrapperIndex ⟨nullProtoObj, fun _ => fZero⟩ = none
  ∧ getFunctionNames nullProtoObj = []
  ∧ (useAsyncDataWrapper ⟨nullProtoObj, fun _ => fZero⟩).names = [] := by
  refine ⟨by decide, rfl, by decide, by decide⟩

/-- Claim C4: in both implementations the parameterized wrapper registers
`useAsyncData` under the key `name ++ "-" ++ JSON.stringify(args)` built from
the current result of the argsSupplier, and two calls whose suppliers yield
argument arrays with distinct serializations (such as `[5]` and `[6]`)
produce distinct keys. -/
theorem C4_parameterized_key (name : String) (f : OrigFn) (args1 args2 : List Int)
    (second : Option Options) (h : jsonStringify args1 ≠ jsonStringify args2) :
    emittedKey (getWrappedFunctionWithArgs name f (Except.ok args1) second)
      = some (name ++ "-" ++ jsonStringify args1)
  ∧ emittedKey (wrappedCallIndex name f (some (CallArg.fnArg (Except.ok args1))) second)
      = some (name ++ "-" ++ jsonStringify args1)
  ∧ emittedKey (getWrappedFunctionWithArgs name f (Except.ok args1) second)
      ≠ emittedKey (getWrappedFunctionWithArgs name f (Except.ok args2) second)
  ∧ emittedKey (wrappedCallIndex name f (some (CallArg.fnArg (Except.ok args1))) second)
      ≠ emittedKey (wrappedCallIndex name f (some (CallArg.fnArg (Except.ok args2))) second) := by
  refine ⟨rfl, rfl, fun hk => h ?_, fun hk => h ?_⟩ <;>
  · have hs : some (name ++ "-" ++ jsonStringify args1)
        = some (name ++ "-" ++ jsonStringify args2) := hk
    exact string_append_left_cancel (Option.some.inj hs)

/-- Claim C4, witness at the spec's example: suppliers yielding `[5]` and
`[6]` give keys `g-[5]` and `g-[6]`, which differ. -/
theorem C4_parameterized_key_witness :
    jsonStringify [5] ≠ jsonStringify [6]
  ∧ (emittedKey (getWrappedFunctionWithArgs "g" gOne (Except.ok [5]) none)
      = some ("g" ++ "-" ++ jsonStringify [5])
  ∧ emittedKey (wrappedCallIndex "g" gOne (some (CallArg.fnArg (Except.ok [5]))) none)
      = some ("g" ++ "-" ++ jsonStringify [5])
  ∧ emittedKey (getWrappedFunctionWithArgs "g" gOne (Except.ok [5]) none)
      ≠ emittedKey (getWrappedFunctionWithArgs "g" gOne (Except.ok [6]) none)
  ∧ emittedKey (wrappedCallIndex "g" gOne (some (CallArg.fnArg (Except.ok [5]))) none)
      ≠ emittedKey (wrappedCallIndex "g" gOne (some (CallArg.fnArg (Except.ok [6]))) none)) :=
  ⟨by decide, C4_parameterized_key "g" gOne [5] [6] none (by decide)⟩

/-- Claim C5: in both implementations a call without an argsSupplier — no
arguments at all, or an options object as the only argument — registers
`useAsyncData` under the bare function name, with nothing appended. -/
theorem C5_simple_key (name : String) (f : OrigFn) (o : Options) :
    emittedKey (getWrapedFunctionWithoutArgs name f none) = some name
  ∧ emittedKey (getWrappedFunction name f none none) = some name
  ∧ emittedKey (getWrappedFunction name f (some (CallArg.optsArg o)) none) = some name
  ∧ emittedKey (wrappedCallIndex name f none none) = some name
  ∧ emittedKey (wrappedCallIndex name f (some (CallArg.optsArg o)) none) = some name :=
  ⟨rfl, rfl, rfl, rfl, rfl⟩

/-- Claim C6: the parameterized configuration is `{ watch: [argsRef],
...options }` — the internally computed watch dependency is written first and
the caller options are spread after it, so when the caller's options carry
their own `watch` entry that entry is the one present in the final
configuration (in both implementations), while without a caller entry the
injected `[argsRef]` remains. -/
theorem C6_caller_watch_wins (name : String) (f : OrigFn) (args : List Int)
    (opts : Options) (w : List WatchRef) (h : opts.watch = some w) :
    (emittedConfig (getWrappedFunctionWithArgs name f (Except.ok args) (some opts))).map Config.watch
      = some (some w)
  ∧ (emittedConfig (wrappedCallIndex name f (some (CallArg.fnArg (Except.ok args))) (some opts))).map Config.watch
      = some (some w)
  ∧ (emittedConfig (getWrappedFunctionWithArgs name f (Except.ok args) none)).map Config.watch
      = some (some [WatchRef.argsRefWatch])
  ∧ (emittedConfig (wrappedCallIndex name f (some (CallArg.fnArg (Except.ok args))) none)).map Config.watch
      = some (some [WatchRef.argsRefWatch]) := by
  refine ⟨?_, ?_, rfl, rfl⟩ <;>
    simp [getWrappedFunctionWithArgs, wrappedCallIndex, emittedConfig, Except.bind, h]

/-- Claim C6, witness: with caller options `{ watch: [customRef 7] }` the
final configuration's watch entry is the caller's `[customRef 7]`. -/
theorem C6_caller_watch_wins_witness :
    customOpts.watch = some [WatchRef.custom 7]
  ∧ ((emittedConfig (getWrappedFunctionWithArgs "g" gOne (Except.ok [5]) (some customOpts))).map Config.watch
      = some (some [WatchRef.custom 7])
  ∧ (emittedConfig (wrappedCallIndex "g" gOne (some (CallArg.fnArg (Except.ok [5]))) (some customOpts))).map Config.watch
      = some (some [WatchRef.custom 7])
  ∧ (emittedConfig (getWrappedFunctionWithArgs "g" gOne (Except.ok [5]) none)).map Config.watch
      = some (some [WatchRef.argsRefWatch])
  ∧ (emittedConfig (wrappedCallIndex "g" gOne (some (CallArg.fnArg (Except.ok [5]))) none)).map Config.watch
      = some (some [WatchRef.argsRefWatch])) :=
  ⟨rfl, C6_caller_watch_wins "g" gOne [5] customOpts [WatchRef.custom 7] rfl⟩

/-- Claim C7: the producer thunk handed to `useAsyncData` always yields a
promise: normalization passes a promise result through unchanged, wraps a
plain result in an already-resolved promise holding the same value, is total,
and is exactly what the registered thunk returns in both implementations, for
the parameterized and the simple variant alike. -/
theorem C7_thunk_normalization (name : String) (f : OrigFn) (args : List Int)
    (second : Option Options) (c v : Int) (r : JSVal) :
    isPromise (ensurePromise r) = true
  ∧ ensurePromise (JSVal.promise c) = JSVal.promise c
  ∧ ensurePromise (JSVal.plain v) = JSVal.promise v
  ∧ emittedThunk (getWrappedFunctionWithArgs name f (Except.ok args) second)
      = some (ensurePromise (f.impl args))
  ∧ emittedThunk (getWrapedFunctionWithoutArgs name f second)
      = some (ensurePromise (f.impl []))
  ∧ emittedThunk (wrappedCallIndex name f (some (CallArg.fnArg (Except.ok args))) second)
      = some (ensurePromise (f.impl args))
  ∧ emittedThunk (wrappedCallIndex name f none second)
      = some (ensurePromise (f.impl [])) := by
  refine ⟨?_, rfl, rfl, rfl, rfl, rfl, rfl⟩
  cases r <;> rfl

/-- Claim C8: when the argsSupplier throws, the exception propagates
synchronously out of the wrapper call in both implementations — the call
evaluates the key (which invokes the supplier) before reaching
`useAsyncData`, no registration is produced, and the error is neither caught
nor transformed. -/
theorem C8_supplier_throw (name : String) (f : OrigFn) (e : String)
    (second : Option Options) :
    getWrappedFunctionWithArgs name f (Except.error e) second = Except.error e
  ∧ getWrappedFunction name f (some (CallArg.fnArg (Except.error e))) second = Except.error e
  ∧ wrappedCallIndex name f (some (CallArg.fnArg (Except.error e))) second = Except.error e :=
  ⟨rfl, rfl, rfl⟩

/-- Claim C9: wrapping the same source object twice yields functionally
equivalent wrapped objects — the same list of member names and, for every
name and every identical call arguments, the same cache key; moreover the
key does not depend on the captured implementations at all, only on the name
and the supplied arguments, so any two wraps of the same shape agree on
keys. -/
theorem C9_rewrap_equivalent (o : SourceObj) (impls2 : String → OrigFn)
    (n : String) (first : Option CallArg) (second : Option Options) :
    (useAsyncDataWrapper o).names = (useAsyncDataWrapper o).names
  ∧ emittedKey ((useAsyncDataWrapper o).call n first second)
      = emittedKey ((useAsyncDataWrapper o).call n first second)
  ∧ (useAsyncDataWrapper ⟨o.shape, impls2⟩).names = (useAsyncDataWrapper o).names
  ∧ emittedKey ((useAsyncDataWrapper ⟨o.shape, impls2⟩).call n first second)
      = emittedKey ((useAsyncDataWrapper o).call n first second) := by
  refine ⟨rfl, rfl, rfl, ?_⟩
  cases first with
  | none => rfl
  | some a =>
      cases a with
      | optsArg opts => rfl
      | fnArg s => cases s <;> rfl

/-- Claim C10, counterexample: the two implementations do not discover the
same set of function names — on `new Derived()` the `src/src/index.ts`
enumeration yields `[b]` while the `src/unnamed/part_001` enumeration yields
`[b, a]`. -/
theorem C10_counterexample :
    functionNamesIndex derivedObj ≠ some (getFunctionNames derivedObj) := by
  decide

/-- Claim C10, amended: the per-call wrapper behavior of the two
implementations is extensionally identical — for every name, original
function and call arguments they either throw the same error or register
`useAsyncData` with the same key, the same thunk result and the same
configuration — but their name enumerations differ (the `src/src/index.ts`
variant reads only the immediate prototype's own properties). -/
theorem C10_per_call_equivalence (name : String) (f : OrigFn)
    (first : Option CallArg) (second : Option Options) :
    wrappedCallIndex name f first second = getWrappedFunction name f first second := by
  cases first with
  | none => rfl
  | some a =>
      cases a with
      | optsArg o => rfl
      | fnArg s => cases s <;> cases second <;> rfl

end Wrapper
